import Mathlib

/-
Verification development for the cloudflare-speed-mcp server.

The definitions below are a shallow embedding of the TypeScript sources:
  * src/utils/time.ts           (token-bucket arithmetic, backoff formula)
  * src/types/rate-limit.ts     (data model for the rate limiter)
  * src/services/rate-limiter.ts
  * src/tools/base-tool.ts      (shared tool pipeline)
  * src/utils/http.ts           (retry / timeout wrappers)
  * src/clients/cloudflare.ts   (probe client error mapping)
  * src/services/server-discovery.ts
  * src/tools/speed-test.ts     (overall scoring)
  * src/config/rate-limits.ts   (env-var name derivation)

Modelling conventions, used consistently:
  * JavaScript numbers are modelled as Nat where the program only ever
    computes with non-negative integers (timestamps in ms, token counts),
    and as Rat where fractional values arise (backoff delays with jitter,
    bandwidth scores).  Date.now() is passed in explicitly as `now`.
  * The local-midnight helper getNextDayStart depends on the host time
    zone; it is passed in as an explicit `nextDay : Nat -> Nat` parameter.
  * Thrown exceptions are modelled with Except; mutation of `this` is
    modelled by returning the updated record.
  * Error message strings that only feed human-readable output are
    abstracted to tags where noted; strings that feed behaviour
    (substring-based error classification) are kept verbatim.
-/

namespace CFSpeed

/-! ### src/utils/time.ts -/

/-- Embedding of calculateWaitTime (src/utils/time.ts:16-34).  `now` is the
value of getCurrentTimestamp().  All callers in the limiter pass
tokensNeeded = 1; the JS float division intervalMs/tokensPerInterval in the
other branch is modelled with Nat division (that branch is unused by the
limiter and by every claim). -/
def calculateWaitTime (lastRefill intervalMs tokensNeeded tokensPerInterval now : ℕ) : ℕ :=
  let timeSinceLastRefill := now - lastRefill
  let timeToNextToken := intervalMs - timeSinceLastRefill % intervalMs
  if tokensNeeded = 1 then
    timeToNextToken
  else
    timeToNextToken + (tokensNeeded - 1) * (intervalMs / tokensPerInterval)

/-- Embedding of calculateTokensToAdd (src/utils/time.ts:36-59): returns
(tokensToAdd, newLastRefill).  Parameter order follows the source; `now` is
getCurrentTimestamp().  Nat truncated subtraction agrees with the JS code:
a negative timeSinceLastRefill is < intervalMs in JS and truncates to 0 here,
and both take the no-refill branch. -/
def calculateTokensToAdd (lastRefill tokensPerInterval intervalMs maxBucketSize currentTokens now : ℕ) :
    ℕ × ℕ :=
  let timeSinceLastRefill := now - lastRefill
  if timeSinceLastRefill < intervalMs then
    (0, lastRefill)
  else
    let intervalsElapsed := timeSinceLastRefill / intervalMs
    (min (intervalsElapsed * tokensPerInterval) (maxBucketSize - currentTokens),
      lastRefill + intervalsElapsed * intervalMs)

/-- Embedding of calculateBackoffDelay (src/utils/time.ts:61-74) over Rat.
`u` models the Math.random() sample in [0,1). -/
def calculateBackoffDelay (consecutiveFailures : ℕ)
    (baseDelayMs maxDelayMs backoffMultiplier jitterFactor u : ℚ) : ℚ :=
  let exponentialDelay := baseDelayMs * backoffMultiplier ^ consecutiveFailures
  let cappedDelay := min exponentialDelay maxDelayMs
  let jitter := cappedDelay * jitterFactor * (u - 1/2)
  max 0 (cappedDelay + jitter)

/-! ### src/types/rate-limit.ts -/

/-- Embedding of RateLimitConfig.  concurrentLimitWaitMs is the optional
field `concurrentLimitWaitMs?`. -/
structure RateLimitConfig where
  tokensPerInterval : ℕ
  intervalMs : ℕ
  maxBucketSize : ℕ
  maxDailyRequests : ℕ
  maxConcurrentRequests : ℕ
  concurrentLimitWaitMs : Option ℕ := none
deriving Repr, DecidableEq

/-- Embedding of TokenBucketState. -/
structure TokenBucketState where
  tokens : ℕ
  lastRefill : ℕ
  dailyRequestCount : ℕ
  dailyResetTime : ℕ
  concurrentRequests : ℕ
deriving Repr, DecidableEq

/-- Denial reasons.  The source stores human-readable strings
("Maximum concurrent requests (n) exceeded", "Daily limit (n) exceeded",
"Token bucket depleted"); they are abstracted to tags, one per
construction site. -/
inductive DenyReason
  | concurrentExceeded
  | dailyExceeded
  | tokenDepleted
deriving Repr, DecidableEq

/-- Embedding of RateLimitResult. -/
structure RateLimitResult where
  allowed : Bool
  remainingTokens : Option ℕ := none
  waitTimeMs : Option ℕ := none
  dailyRequestsRemaining : Option ℕ := none
  reason : Option DenyReason := none
deriving Repr, DecidableEq

/-- The reason union type of the RateLimitError class. -/
inductive LimitType
  | tokenBucket
  | dailyLimit
  | concurrentLimit
deriving Repr, DecidableEq

/-- Embedding of the RateLimitError class (src/types/rate-limit.ts).  The
name field is the JS Error.name, always set to "RateLimitError" by its
constructor; the message string is abstracted away.  waitTimeMs is Rat
because acquirePermission feeds it a jittered backoff delay. -/
structure RateLimitErrorData where
  name : String := "RateLimitError"
  waitTimeMs : ℚ
  operationType : String
  reason : LimitType
deriving Repr, DecidableEq

/-- Embedding of BackoffState. -/
structure BackoffState where
  consecutiveFailures : ℕ
  lastFailureTime : ℕ
deriving Repr, DecidableEq

/-- Embedding of RateLimitBackoffConfig, over Rat (multiplier and jitter
factor are fractional). -/
structure RateLimitBackoffConfig where
  baseDelayMs : ℚ
  maxDelayMs : ℚ
  backoffMultiplier : ℚ
  jitterFactor : ℚ
deriving Repr, DecidableEq

/-! ### src/services/rate-limiter.ts -/

/-- JS truthiness-or-default: models `x || d` for an optional number,
where both undefined and 0 fall back to the default. -/
def jsOrDefault (o : Option ℕ) (d : ℕ) : ℕ :=
  match o with
  | some n => if n = 0 then d else n
  | none => d

/-- Embedding of RateLimiter.refillTokens (src/services/rate-limiter.ts:171-196)
restricted to one bucket: state and lastRefill are only updated when
tokensToAdd > 0. -/
def refillTokens (config : RateLimitConfig) (state : TokenBucketState) (now : ℕ) :
    TokenBucketState :=
  let r := calculateTokensToAdd state.lastRefill config.tokensPerInterval config.intervalMs
    config.maxBucketSize state.tokens now
  if 0 < r.1 then
    { state with tokens := min (state.tokens + r.1) config.maxBucketSize, lastRefill := r.2 }
  else state

/-- Embedding of RateLimiter.resetDailyCountIfNeeded
(src/services/rate-limiter.ts:198-214). -/
def resetDailyCountIfNeeded (state : TokenBucketState) (now : ℕ) (nextDay : ℕ → ℕ) :
    TokenBucketState :=
  if state.dailyResetTime ≤ now then
    { state with dailyRequestCount := 0, dailyResetTime := nextDay now }
  else state

/-- Embedding of RateLimiter.checkConcurrentLimit
(src/services/rate-limiter.ts:216-238). -/
def checkConcurrentLimit (config : RateLimitConfig) (state : TokenBucketState) :
    RateLimitResult :=
  if config.maxConcurrentRequests ≤ state.concurrentRequests then
    { allowed := false,
      waitTimeMs := some (jsOrDefault config.concurrentLimitWaitMs 1000),
      reason := some .concurrentExceeded }
  else { allowed := true }

/-- Embedding of RateLimiter.checkDailyLimit
(src/services/rate-limiter.ts:240-264). -/
def checkDailyLimit (config : RateLimitConfig) (state : TokenBucketState) (now : ℕ) :
    RateLimitResult :=
  if config.maxDailyRequests ≤ state.dailyRequestCount then
    { allowed := false,
      waitTimeMs := some (state.dailyResetTime - now),
      dailyRequestsRemaining := some 0,
      reason := some .dailyExceeded }
  else { allowed := true }

/-- Embedding of RateLimiter.checkTokenBucket
(src/services/rate-limiter.ts:266-296). -/
def checkTokenBucket (config : RateLimitConfig) (state : TokenBucketState) (now : ℕ) :
    RateLimitResult :=
  if state.tokens < 1 then
    { allowed := false,
      remainingTokens := some 0,
      waitTimeMs := some
        (calculateWaitTime state.lastRefill config.intervalMs 1 config.tokensPerInterval now),
      reason := some .tokenDepleted }
  else { allowed := true }

/-- Embedding of RateLimiter.consumeToken (src/services/rate-limiter.ts:298-310);
Math.max(0, tokens - 1) is Nat truncated subtraction. -/
def consumeToken (state : TokenBucketState) : TokenBucketState :=
  { state with tokens := state.tokens - 1, dailyRequestCount := state.dailyRequestCount + 1 }

/-- Embedding of RateLimiter.mapReasonToLimitType
(src/services/rate-limiter.ts:377-395).  The source matches substrings of
the lower-cased reason message; each DenyReason tag stands for exactly one
message, and the concurrent message contains "concurrent", the daily message
contains "daily", and everything else (including the token message and the
empty string) defaults to token_bucket. -/
def mapReasonToLimitType : Option DenyReason → LimitType
  | some .concurrentExceeded => .concurrentLimit
  | some .dailyExceeded => .dailyLimit
  | _ => .tokenBucket

/-- The RateLimiter singleton: the three per-operation maps plus the
process-wide backoff config.  Map lookups model Map.get. -/
structure RateLimiter where
  configs : String → Option RateLimitConfig
  states : String → Option TokenBucketState
  backoffStates : String → Option BackoffState
  backoffConfig : RateLimitBackoffConfig

/-- Map.set on the states map. -/
def RateLimiter.setState (rl : RateLimiter) (op : String) (st : TokenBucketState) :
    RateLimiter :=
  { rl with states := fun o => if o = op then some st else rl.states o }

/-- Map.set on the backoffStates map. -/
def RateLimiter.setBackoff (rl : RateLimiter) (op : String) (bs : BackoffState) :
    RateLimiter :=
  { rl with backoffStates := fun o => if o = op then some bs else rl.backoffStates o }

/-- Embedding of RateLimiter.initializeState (src/services/rate-limiter.ts:40-56),
bucket part: a fresh bucket starts with tokens = maxBucketSize. -/
def initBucketState (config : RateLimitConfig) (now : ℕ) (nextDay : ℕ → ℕ) :
    TokenBucketState :=
  { tokens := config.maxBucketSize
    lastRefill := now
    dailyRequestCount := 0
    dailyResetTime := nextDay now
    concurrentRequests := 0 }

/-- Embedding of RateLimiter.checkRateLimit (src/services/rate-limiter.ts:58-97).
An operation type missing from the maps throws a RateLimitError with
waitTimeMs 0 and reason token_bucket (the only throw reachable from this
method when the maps are in sync); otherwise the bucket is refilled, the
daily count is reset if due, and the three gates run in order
concurrent, daily, token.  On success the token is consumed, the backoff
state is cleared, and the result reports the mutated state. -/
def RateLimiter.checkRateLimit (rl : RateLimiter) (op : String) (now : ℕ)
    (nextDay : ℕ → ℕ) : Except RateLimitErrorData (RateLimitResult × RateLimiter) :=
  match rl.configs op, rl.states op with
  | some config, some state0 =>
    let state1 := resetDailyCountIfNeeded (refillTokens config state0 now) now nextDay
    let rl1 := rl.setState op state1
    let concurrentCheck := checkConcurrentLimit config state1
    if concurrentCheck.allowed = false then .ok (concurrentCheck, rl1)
    else
      let dailyCheck := checkDailyLimit config state1 now
      if dailyCheck.allowed = false then .ok (dailyCheck, rl1)
      else
        let tokenCheck := checkTokenBucket config state1 now
        if tokenCheck.allowed = false then .ok (tokenCheck, rl1)
        else
          let state2 := consumeToken state1
          let rl2 := (rl.setState op state2).setBackoff op
            { consecutiveFailures := 0, lastFailureTime := 0 }
          .ok ({ allowed := true
                 remainingTokens := some state2.tokens
                 dailyRequestsRemaining :=
                   some (config.maxDailyRequests - state2.dailyRequestCount) }, rl2)
  | _, _ => .error { waitTimeMs := 0, operationType := op, reason := .tokenBucket }

/-- Embedding of RateLimiter.acquirePermission (src/services/rate-limiter.ts:99-116).
On denial it first records the failure (incrementing consecutiveFailures),
then computes the current backoff delay from the incremented count, and
throws with waitTimeMs = max(admission wait, backoff delay).  On allow it
increments concurrentRequests.  `u` is the Math.random() sample used by the
jitter. -/
def RateLimiter.acquirePermission (rl : RateLimiter) (op : String) (now : ℕ)
    (nextDay : ℕ → ℕ) (u : ℚ) : Except RateLimitErrorData RateLimiter :=
  match rl.checkRateLimit op now nextDay with
  | .error e => .error e
  | .ok (result, rl1) =>
    if result.allowed = false then
      match rl1.backoffStates op with
      | none => .error { waitTimeMs := 0, operationType := op, reason := .tokenBucket }
      | some bs0 =>
        let bs1 : BackoffState :=
          { consecutiveFailures := bs0.consecutiveFailures + 1, lastFailureTime := now }
        let rl2 := rl1.setBackoff op bs1
        let backoffDelay : ℚ :=
          if bs1.consecutiveFailures = 0 then 0
          else calculateBackoffDelay bs1.consecutiveFailures rl2.backoffConfig.baseDelayMs
            rl2.backoffConfig.maxDelayMs rl2.backoffConfig.backoffMultiplier
            rl2.backoffConfig.jitterFactor u
        let totalWaitTime : ℚ := max ((result.waitTimeMs.getD 0 : ℕ) : ℚ) backoffDelay
        .error { waitTimeMs := totalWaitTime, operationType := op
                 reason := mapReasonToLimitType result.reason }
    else
      match rl1.states op with
      | none => .error { waitTimeMs := 0, operationType := op, reason := .concurrentLimit }
      | some st =>
        .ok (rl1.setState op { st with concurrentRequests := st.concurrentRequests + 1 })

/-- Embedding of RateLimiter.releasePermission (src/services/rate-limiter.ts:118-123):
decrements concurrentRequests, clamped at 0, and is a no-op on an unknown
operation type. -/
def RateLimiter.releasePermission (rl : RateLimiter) (op : String) : RateLimiter :=
  match rl.states op with
  | some st =>
    if 0 < st.concurrentRequests then
      rl.setState op { st with concurrentRequests := st.concurrentRequests - 1 }
    else rl
  | none => rl

/-- Projection: the RateLimitResult of a checkRateLimit call, when it did
not throw. -/
def checkResult (rl : RateLimiter) (op : String) (now : ℕ) (nextDay : ℕ → ℕ) :
    Option RateLimitResult :=
  match rl.checkRateLimit op now nextDay with
  | .ok p => some p.1
  | .error _ => none

/-- Projection: the name of the thrown error, if any. -/
def errName {α : Type} : Except RateLimitErrorData α → Option String
  | .error e => some e.name
  | .ok _ => none

/-- Projection: the waitTimeMs of the thrown error, if any. -/
def errWait {α : Type} : Except RateLimitErrorData α → Option ℚ
  | .error e => some e.waitTimeMs
  | .ok _ => none

/-! ### Concrete fixtures (defaults from src/config/rate-limits.ts) -/

/-- DEFAULT_RATE_LIMITS[speed_test]. -/
def speedTestConfig : RateLimitConfig :=
  { tokensPerInterval := 1, intervalMs := 180000, maxBucketSize := 2
    maxDailyRequests := 50, maxConcurrentRequests := 1 }

/-- DEFAULT_BACKOFF_CONFIG. -/
def defaultBackoffConfig : RateLimitBackoffConfig :=
  { baseDelayMs := 1000, maxDelayMs := 60000, backoffMultiplier := 2, jitterFactor := 1/10 }

/-- A concrete stand-in for getNextDayStart: the next UTC midnight.  The
claims under study never depend on its value. -/
def nextDayUTC (now : ℕ) : ℕ :=
  now / 86400000 * 86400000 + 86400000

/-- A limiter holding exactly the speed_test bucket in its freshly
initialized state at time 0. -/
def rlDemo : RateLimiter :=
  { configs := fun o => if o = "speed_test" then some speedTestConfig else none
    states := fun o =>
      if o = "speed_test" then some (initBucketState speedTestConfig 0 nextDayUTC) else none
    backoffStates := fun o =>
      if o = "speed_test" then some { consecutiveFailures := 0, lastFailureTime := 0 } else none
    backoffConfig := defaultBackoffConfig }

/-- The same limiter with the speed_test concurrency slot taken, so that
the next admission check denies at the concurrent gate. -/
def rlBusy : RateLimiter :=
  { rlDemo with
    states := fun o =>
      if o = "speed_test" then
        some { initBucketState speedTestConfig 0 nextDayUTC with concurrentRequests := 1 }
      else none }

/-! ### src/utils/http.ts and error classification helpers -/

/-- A JavaScript Error value as the pipeline observes it: the class name
(Error.name), the message, the optional code property attached by
Object.assign, and the optional retryable flag of SpeedTestError. -/
structure JsError where
  name : String
  message : String
  code : Option String := none
  retryable : Option Bool := none
deriving Repr, DecidableEq

/-- Whether pat is a leading segment of l. -/
def leadsWith : List Char → List Char → Bool
  | [], _ => true
  | _ :: _, [] => false
  | a :: as, b :: bs => a == b && leadsWith as bs

/-- Whether pat occurs contiguously in l. -/
def subAt (pat : List Char) : List Char → Bool
  | [] => leadsWith pat []
  | c :: rest => leadsWith pat (c :: rest) || subAt pat rest

/-- JS String.prototype.includes. -/
def containsSub (s pat : String) : Bool :=
  subAt pat.data s.data

/-- Embedding of the TimeoutError class (src/utils/http.ts): message
"Operation timed out after {t}ms". -/
def timeoutError (t : ℕ) : JsError :=
  { name := "TimeoutError", message := "Operation timed out after " ++ toString t ++ "ms" }

/-- Embedding of the RetryError class (src/utils/http.ts): message
"Failed after {n} attempts. Last error: {m}". -/
def retryError (attempts : ℕ) (lastError : JsError) : JsError :=
  { name := "RetryError"
    message := "Failed after " ++ toString attempts ++ " attempts. Last error: "
      ++ lastError.message }

/-- API_RETRY_CONFIG.retryableErrors (src/config/api.ts). -/
def retryableErrors : List String :=
  ["ECONNRESET", "ETIMEDOUT", "ENOTFOUND", "ECONNREFUSED", "NETWORK_ERROR", "TIMEOUT_ERROR"]

/-- Embedding of HttpClient.isRetryableError (src/utils/http.ts): some code
in the list occurs in the message, or equals the code property of the error. -/
def isRetryableError (codes : List String) (e : JsError) : Bool :=
  codes.any fun c => containsSub e.message c || e.code == some c

/-- Loop body of HttpClient.withRetry (src/utils/http.ts:193-215).  `op`
gives the outcome of the attempt with the given 1-based index; the fuel
argument makes the recursion structural and is started above maxAttempts so
the loop exit (attempt = maxAttempts, or a non-retryable error) is always
taken first, exactly as in the source.  Note that EVERY failure is wrapped
in a RetryError, retryable or not. -/
def withRetryGo {α : Type} (maxAttempts : ℕ) (codes : List String)
    (op : ℕ → Except JsError α) : ℕ → ℕ → JsError → Except JsError α
  | 0, _, lastError => .error (retryError maxAttempts lastError)
  | fuel + 1, attempt, lastError =>
    if maxAttempts < attempt then .error (retryError maxAttempts lastError)
    else
      match op attempt with
      | .ok v => .ok v
      | .error e =>
        if attempt = maxAttempts || !isRetryableError codes e then
          .error (retryError maxAttempts e)
        else withRetryGo maxAttempts codes op fuel (attempt + 1) e

/-- Embedding of HttpClient.withRetry: starts at attempt 1 with the
placeholder lastError new Error("Unknown error"). -/
def withRetry {α : Type} (maxAttempts : ℕ) (codes : List String)
    (op : ℕ → Except JsError α) : Except JsError α :=
  withRetryGo maxAttempts codes op (maxAttempts + 1) 1
    { name := "Error", message := "Unknown error" }

/-! ### src/clients/cloudflare.ts -/

/-- Embedding of the error mapping of CloudflareSpeedTestClient.runSpeedTest
(src/clients/cloudflare.ts:103-149).  `op attempt` is the outcome of the
attempt-th executeSpeedTest run (a deadline expiry rejects with
timeoutError speedTestTimeout); the adapter-internal checkRateLimit map and
the logging are outside the claims and omitted.  instanceof checks are
modelled by the Error.name. -/
def runSpeedTestResult {α : Type} (speedTestTimeout : ℕ)
    (op : ℕ → Except JsError α) : Except JsError α :=
  match withRetry 3 retryableErrors op with
  | .ok v => .ok v
  | .error e =>
    if e.name = "RetryError" then
      .error { name := "SpeedTestError"
               message := "Speed test failed after " ++ e.message
               code := some "SPEED_TEST_RETRY_EXHAUSTED", retryable := some false }
    else if e.name = "TimeoutError" then
      .error { name := "SpeedTestError"
               message := "Speed test timed out after " ++ toString speedTestTimeout ++ "ms"
               code := some "SPEED_TEST_TIMEOUT", retryable := some true }
    else .error e

/-! ### src/tools/base-tool.ts -/

/-- Embedding of BaseTool.getErrorCode (src/tools/base-tool.ts:195-216):
an existing code property wins; otherwise the message is classified by
substring. -/
def getErrorCode (e : JsError) : String :=
  match e.code with
  | some c => c
  | none =>
    if containsSub e.message "timeout" then "TIMEOUT_ERROR"
    else if containsSub e.message "rate limit" then "RATE_LIMIT_ERROR"
    else if containsSub e.message "validation" || containsSub e.message "invalid" then
      "VALIDATION_ERROR"
    else if containsSub e.message "network" || containsSub e.message "connection" then
      "NETWORK_ERROR"
    else "EXECUTION_ERROR"

/-- The error envelope emitted by BaseTool.formatErrorResponse
(src/tools/base-tool.ts:156-190); the details payload is omitted. -/
structure ErrorEnvelope where
  success : Bool
  errorCode : String
  errorMessage : String
  executionTime : ℕ
  toolName : String
  isError : Bool
deriving Repr, DecidableEq

/-- Embedding of BaseTool.formatErrorResponse: success false, classified
code, executionTime = Date.now() − context.startTime, isError marker. -/
def formatErrorResponse (e : JsError) (toolName : String) (startTime now : ℕ) :
    ErrorEnvelope :=
  { success := false
    errorCode := getErrorCode e
    errorMessage := e.message
    executionTime := now - startTime
    toolName := toolName
    isError := true }

/-- The response BaseTool.execute returns: a success envelope (payload
abstracted, executionTime kept) or an error envelope. -/
inductive McpResponse
  | success (executionTime : ℕ)
  | failure (envelope : ErrorEnvelope)
deriving Repr, DecidableEq

/-- One call into the RateLimiter made by the tool pipeline. -/
inductive LimiterCall
  | chk (op : String)
  | acq (op : String)
  | rel (op : String)
deriving Repr, DecidableEq

/-- Outcome of the tool-specific executeImpl: a successful ToolResult, a
ToolResult with success false carrying an error code and message, or a
thrown exception. -/
inductive ImplOutcome
  | succeeds (executionTime : ℕ)
  | failsResult (code : String) (msg : String)
  | throwsErr (e : JsError)
deriving Repr, DecidableEq

/-- The JsError that a thrown RateLimitError surfaces as in the catch block
of BaseTool.execute.  Within this embedding checkRateLimit only throws for
an unknown operation type, whose message is
"Unknown operation type: {op}". -/
def rateLimitErrToJs (e : RateLimitErrorData) : JsError :=
  { name := e.name, message := "Unknown operation type: " ++ e.operationType }

/-- Embedding of BaseTool.execute (src/tools/base-tool.ts:29-67).  Besides
the response it returns the updated limiter and the list of RateLimiter
calls the invocation performed.  The pipeline is: validateArguments (a
validation failure throws and is caught), then BaseTool.checkRateLimit —
which calls RateLimiter.checkRateLimit and DISCARDS its result
(src/tools/base-tool.ts:110-112), so only the unknown-operation throw stops
the invocation — then executeImpl, then formatting.  No branch calls
acquirePermission or releasePermission. -/
def BaseTool.executeRun (rl : RateLimiter) (op toolName : String) (now : ℕ)
    (nextDay : ℕ → ℕ) (startTime : ℕ) (validationError : Option JsError)
    (impl : ImplOutcome) : McpResponse × RateLimiter × List LimiterCall :=
  match validationError with
  | some e => (.failure (formatErrorResponse e toolName startTime now), rl, [])
  | none =>
    match rl.checkRateLimit op now nextDay with
    | .error e =>
      (.failure (formatErrorResponse (rateLimitErrToJs e) toolName startTime now), rl,
        [.chk op])
    | .ok (_result, rl1) =>
      match impl with
      | .succeeds t => (.success t, rl1, [.chk op])
      | .failsResult code msg =>
        (.failure (formatErrorResponse { name := "Error", message := msg, code := some code }
          toolName startTime now), rl1, [.chk op])
      | .throwsErr e =>
        (.failure (formatErrorResponse e toolName startTime now), rl1, [.chk op])

/-! ### src/services/server-discovery.ts (with src/utils/geo.ts types) -/

/-- A coordinate pair (src/utils/geo.ts Coordinates). -/
structure Coordinates where
  latitude : ℚ
  longitude : ℚ
deriving Repr, DecidableEq

/-- The user location (src/utils/geo.ts Location, the fields getServers
reads). -/
structure GeoLocation where
  latitude : Option ℚ := none
  longitude : Option ℚ := none
deriving Repr, DecidableEq

/-- ServerInfo (src/services/server-discovery.ts:16-21 extending
ServerLocation from src/types/speedtest.ts). -/
structure ServerInfo where
  name : String
  location : String
  country : String
  city : String
  region : String
  latitude : Option ℚ := none
  longitude : Option ℚ := none
  status : String := "available"
  continent : Option String := none
  distanceKm : Option ℚ := none
  lastChecked : Option ℕ := none
deriving Repr, DecidableEq

/-- ServerFilter (src/services/server-discovery.ts:23-29). -/
structure ServerFilter where
  name : Option String := none
  continent : Option String := none
  country : Option String := none
  region : Option String := none
  maxDistance : Option ℚ := none
deriving Repr, DecidableEq

/-- CachedServerData (src/services/server-discovery.ts:31-34). -/
structure CachedServerData where
  servers : List ServerInfo
  timestamp : ℕ
deriving Repr, DecidableEq

/-- JS truthiness of an optional number: undefined and 0 are falsy. -/
def numTruthy : Option ℚ → Bool
  | some v => v ≠ 0
  | none => false

/-- JS truthiness of an optional string: undefined and "" are falsy. -/
def strTruthy : Option String → Bool
  | some s => s ≠ ""
  | none => false

/-- Distance enrichment step of filterServers
(src/services/server-discovery.ts:175-192).  The haversine calculation in
src/utils/geo.ts calculateDistance is real-valued trigonometry; it enters
only through the value stored in distanceKm, so it is passed in as the
`dist` collaborator.  The `if (userLocation?.latitude &&
userLocation?.longitude)` and `if (server.latitude && server.longitude)`
guards are JS truthiness tests on optional numbers. -/
def enrichDistances (dist : Coordinates → Coordinates → ℚ)
    (userLocation : Option GeoLocation) (servers : List ServerInfo) : List ServerInfo :=
  match userLocation with
  | some u =>
    if numTruthy u.latitude && numTruthy u.longitude then
      servers.map fun s =>
        if numTruthy s.latitude && numTruthy s.longitude then
          { s with distanceKm := some (dist
              { latitude := u.latitude.getD 0, longitude := u.longitude.getD 0 }
              { latitude := s.latitude.getD 0, longitude := s.longitude.getD 0 }) }
        else s
    else servers
  | none => servers

/-- The inner predicate of the regional filter
(src/services/server-discovery.ts:205-217): every truthy filter component
must match exactly. -/
def regionalInner (filt : ServerFilter) (s : ServerInfo) : Bool :=
  (!(strTruthy filt.continent) || s.continent == filt.continent) &&
  (!(strTruthy filt.country) || some s.country == filt.country) &&
  (!(strTruthy filt.region) || some s.region == filt.region)

/-- The filter cascade of filterServers
(src/services/server-discovery.ts:195-228): name filter (when the name
field is truthy), regional filter (when any of continent/country/region is
truthy), then the distance filter — applied only when maxDistance is not
undefined AND a userLocation argument was passed, and keeping every entry
whose distanceKm is undefined. -/
def filterCascade (filt : ServerFilter) (userLocation : Option GeoLocation)
    (l : List ServerInfo) : List ServerInfo :=
  let l1 := if strTruthy filt.name then l.filter (fun s => some s.name == filt.name) else l
  let l2 :=
    if strTruthy filt.continent || strTruthy filt.country || strTruthy filt.region then
      l1.filter (regionalInner filt)
    else l1
  if filt.maxDistance.isSome && userLocation.isSome then
    l2.filter fun s =>
      match s.distanceKm, filt.maxDistance with
      | none, _ => true
      | some d, some m => d ≤ m
      | some _, none => true
  else l2

/-- The sort comparator of filterServers
(src/services/server-discovery.ts:232-236), as the relation
"comparator(a,b) ≤ 0": an undefined distanceKm compares after everything
(the comparator returns 1 when a has no distance and −1 when only b has
none). -/
def distCmpLe (a b : ServerInfo) : Bool :=
  match a.distanceKm, b.distanceKm with
  | none, _ => false
  | some _, none => true
  | some x, some y => x ≤ y

/-- Embedding of ServerDiscoveryService.filterServers
(src/services/server-discovery.ts:168-240): enrich with distances, apply
the filter cascade when a filter was passed, and — when a userLocation was
passed — sort by the distance comparator.  Array.prototype.sort is modelled
as a comparison sort (insertion sort) driven by the comparator. -/
def filterServers (dist : Coordinates → Coordinates → ℚ) (servers : List ServerInfo)
    (filt : Option ServerFilter) (userLocation : Option GeoLocation) : List ServerInfo :=
  let withDist := enrichDistances dist userLocation servers
  let filtered :=
    match filt with
    | some f => filterCascade f userLocation withDist
    | none => withDist
  match userLocation with
  | some _ => List.insertionSort (fun a b => distCmpLe a b = true) filtered
  | none => filtered

/-- CACHE_TTL_MS (src/services/server-discovery.ts:40). -/
def CACHE_TTL_MS : ℕ := 300000

/-- Embedding of ServerDiscoveryService.isCacheValid
(src/services/server-discovery.ts:135-141). -/
def isCacheValid (cache : Option CachedServerData) (now : ℕ) : Bool :=
  match cache with
  | none => false
  | some c => now - c.timestamp < CACHE_TTL_MS

/-- Modelled from the spec: the string value of the long-form
OperationType.CONNECTION_INFO member referenced by server-discovery.ts.
The long-form enum declaration itself is not among the provided sources
(only the short form is); the spec fixes the tag to the
lowercase-underscore string connection_info. -/
def connectionInfoOp : String := "connection_info"

/-- What getServers produces: the returned list, or one of its three
failure modes. -/
inductive DiscoveryOutcome
  | ok (servers : List ServerInfo)
  | limiterThrow (e : RateLimitErrorData)
  | discoveryRateLimit (reason : Option DenyReason)
  | fetchFailure (e : JsError)
deriving Repr, DecidableEq

/-- The mutable state getServers touches: the cache cell and the limiter. -/
structure DiscoveryState where
  cache : Option CachedServerData
  limiter : RateLimiter

/-- The fetch-and-cache path of getServers
(src/services/server-discovery.ts:61-93), entered when the cache is
missing or stale: admission on connection_info first (a denial becomes the
"Server discovery rate limit exceeded" Error, modelled as
discoveryRateLimit carrying the admission reason), then the upstream fetch,
whose outcome is the `fetchResult` collaborator (fetchServers =
discoverServers plus enrichment); on fetch success the cache is replaced
wholesale, on fetch failure a stale cache is served and no error
propagates, otherwise the error propagates.  The third component records
whether the upstream fetch ran. -/
def getServersFetchPath (dist : Coordinates → Coordinates → ℚ) (st : DiscoveryState)
    (now : ℕ) (nextDay : ℕ → ℕ) (fetchResult : Except JsError (List ServerInfo))
    (filt : Option ServerFilter) (uloc : Option GeoLocation) :
    DiscoveryOutcome × DiscoveryState × Bool :=
  match st.limiter.checkRateLimit connectionInfoOp now nextDay with
  | .error e => (.limiterThrow e, st, false)
  | .ok (result, rl1) =>
    if result.allowed = false then
      (.discoveryRateLimit result.reason, { st with limiter := rl1 }, false)
    else
      match fetchResult with
      | .ok servers =>
        (.ok (filterServers dist servers filt uloc),
          { cache := some { servers := servers, timestamp := now }, limiter := rl1 }, true)
      | .error e =>
        match st.cache with
        | some c =>
          (.ok (filterServers dist c.servers filt uloc), { st with limiter := rl1 }, true)
        | none => (.fetchFailure e, { st with limiter := rl1 }, true)

/-- Embedding of ServerDiscoveryService.getServers
(src/services/server-discovery.ts:51-94): a valid cache is served,
filtered, without touching the limiter or the upstream; otherwise the
fetch path runs. -/
def getServers (dist : Coordinates → Coordinates → ℚ) (st : DiscoveryState) (now : ℕ)
    (nextDay : ℕ → ℕ) (fetchResult : Except JsError (List ServerInfo))
    (filt : Option ServerFilter) (uloc : Option GeoLocation) :
    DiscoveryOutcome × DiscoveryState × Bool :=
  match st.cache with
  | some c =>
    if now - c.timestamp < CACHE_TTL_MS then
      (.ok (filterServers dist c.servers filt uloc), st, false)
    else getServersFetchPath dist st now nextDay fetchResult filt uloc
  | none => getServersFetchPath dist st now nextDay fetchResult filt uloc

/-! ### src/tools/speed-test.ts (overall scoring) -/

/-- The latency block of ComprehensiveSpeedResult data
(src/tools/speed-test.ts:209-215). -/
structure LatencyData where
  latency : ℚ
  jitter : ℚ
  packetsSent : ℕ
  packetsReceived : ℕ
  packetLoss : ℚ
deriving Repr, DecidableEq

/-- The download/upload block (src/tools/speed-test.ts:223-243). -/
structure BandwidthData where
  bandwidth : ℚ
  bytes : ℕ
  duration : ℚ
  throughput : ℚ
deriving Repr, DecidableEq

/-- The packet-loss block (src/tools/speed-test.ts:251-257); batchResults
is always [] there and omitted. -/
structure PacketLossData where
  packetLoss : ℚ
  totalPackets : ℕ
  lostPackets : ℤ
deriving Repr, DecidableEq

/-- The component results calculateOverallSummary reads
(src/tools/speed-test.ts:192-202). -/
structure SpeedComponents where
  download : Option BandwidthData := none
  upload : Option BandwidthData := none
  latency : Option LatencyData := none
  packetLoss : Option PacketLossData := none
deriving Repr, DecidableEq

/-- Quality classification (src/tools/speed-test.ts:323-332). -/
inductive Classification
  | poor
  | fair
  | good
  | excellent
deriving Repr, DecidableEq

/-- The summary record (src/tools/speed-test.ts:334-338). -/
structure SpeedSummary where
  overallScore : ℤ
  classification : Classification
  recommendations : List String
deriving Repr, DecidableEq

/-- JS Math.round: round half toward positive infinity. -/
def jsRound (q : ℚ) : ℤ := ⌊q + 1/2⌋

/-- Embedding of SpeedTestTool.calculateOverallSummary
(src/tools/speed-test.ts:266-339), accumulating totalScore,
componentCount and the recommendations in source order (latency, download,
upload, packet loss), then the mean, the threshold classification of the
unrounded mean, and Math.round of the mean. -/
def calculateOverallSummary (d : SpeedComponents) : SpeedSummary :=
  let a1 : ℚ × ℕ × List String :=
    match d.latency with
    | some ld =>
      (max 0 (100 - ld.latency / 10), 1,
        if 100 < ld.latency then
          ["High latency detected - consider checking network connectivity"]
        else [])
    | none => (0, 0, [])
  let a2 : ℚ × ℕ × List String :=
    match d.download with
    | some b =>
      (a1.1 + min 100 (b.bandwidth / 1000000 / 100 * 100), a1.2.1 + 1,
        a1.2.2 ++ if b.bandwidth / 1000000 < 25 then
          ["Download speed below recommended levels for HD streaming"]
        else [])
    | none => a1
  let a3 : ℚ × ℕ × List String :=
    match d.upload with
    | some b =>
      (a2.1 + min 100 (b.bandwidth / 1000000 / 25 * 100), a2.2.1 + 1,
        a2.2.2 ++ if b.bandwidth / 1000000 < 10 then
          ["Upload speed may affect video conferencing quality"]
        else [])
    | none => a2
  let a4 : ℚ × ℕ × List String :=
    match d.packetLoss with
    | some p =>
      (a3.1 + max 0 (100 - p.packetLoss * 10), a3.2.1 + 1,
        a3.2.2 ++ if 1 < p.packetLoss then
          ["Packet loss detected - may indicate network congestion"]
        else [])
    | none => a3
  let overallScore : ℚ := if 0 < a4.2.1 then a4.1 / a4.2.1 else 0
  let classification : Classification :=
    if 80 ≤ overallScore then .excellent
    else if 60 ≤ overallScore then .good
    else if 40 ≤ overallScore then .fair
    else .poor
  { overallScore := jsRound overallScore
    classification := classification
    recommendations := a4.2.2 }

/-- Specification-side list of the available component scores, written from
the claim: latency max(0, 100 − latencyMs/10); download
min(100, (Mbps/100)·100) with Mbps = bps/10⁶; upload min(100, (Mbps/25)·100);
packet loss max(0, 100 − lossPct·10); in the order the source visits
components. -/
def componentScores (d : SpeedComponents) : List ℚ :=
  (match d.latency with
   | some ld => [max 0 (100 - ld.latency / 10)]
   | none => []) ++
  (match d.download with
   | some b => [min 100 (b.bandwidth / 1000000 / 100 * 100)]
   | none => []) ++
  (match d.upload with
   | some b => [min 100 (b.bandwidth / 1000000 / 25 * 100)]
   | none => []) ++
  (match d.packetLoss with
   | some p => [max 0 (100 - p.packetLoss * 10)]
   | none => [])

/-- Specification-side mean of the available component scores (0 when no
component is available). -/
def meanScore (d : SpeedComponents) : ℚ :=
  let s := componentScores d
  if s.length = 0 then 0 else s.sum / s.length

/-! ### src/config/rate-limits.ts (env-var name derivation) -/

/-- The ASCII range the regex character class [A-Z] matches. -/
def isUpperAscii (c : Char) : Bool :=
  65 ≤ c.toNat && c.toNat ≤ 90

/-- A lowercase ASCII letter or an underscore — the character set of the
operation-class tags. -/
def isLowerOrUnderscore (c : Char) : Bool :=
  (97 ≤ c.toNat && c.toNat ≤ 122) || c.toNat = 95

/-- JS String.prototype.toUpperCase on one ASCII character. -/
def jsUpperChar (c : Char) : Char :=
  if 97 ≤ c.toNat && c.toNat ≤ 122 then Char.ofNat (c.toNat - 32) else c

/-- The replace step of camelToScreamingSnakeCase
(src/config/rate-limits.ts:176-178): every character matched by
/([A-Z])/g is replaced by an underscore followed by itself. -/
def replaceUpperWithUnderscore (s : List Char) : List Char :=
  (s.map fun c => if isUpperAscii c then ['_', c] else [c]).flatten

/-- Embedding of camelToScreamingSnakeCase (src/config/rate-limits.ts:176-178)
on the character list of the string:
str.replace(/([A-Z])/g, "_$1").toUpperCase(). -/
def camelToScreamingSnakeCase (s : List Char) : List Char :=
  (replaceUpperWithUnderscore s).map jsUpperChar

/-- JS String.prototype.toUpperCase on the character list of the string —
the other derivation rule (str.toUpperCase()). -/
def jsToUpperCase (s : List Char) : List Char :=
  s.map jsUpperChar

/-! ## Theorems -/

/-! ### Claim C10 -/

/-- Claim C10: for every operation-class tag — a string of lowercase ASCII
letters and underscores — camelToScreamingSnakeCase(tag) equals
tag.toUpperCase(), so both env-name derivation rules found in
src/config/rate-limits.ts produce identical RATE_LIMIT_CLASS names. -/
theorem camel_eq_upper_on_class_tags (s : List Char)
    (h : ∀ c ∈ s, isLowerOrUnderscore c = true) :
    camelToScreamingSnakeCase s = jsToUpperCase s := by
  induction s with
  | nil => rfl
  | cons c t ih =>
    have hc := h c (by simp)
    have hnotUpper : isUpperAscii c = false := by
      simp only [isLowerOrUnderscore, Bool.or_eq_true, Bool.and_eq_true,
        decide_eq_true_eq] at hc
      rw [Bool.eq_false_iff]
      intro hcontra
      simp only [isUpperAscii, Bool.and_eq_true, decide_eq_true_eq] at hcontra
      omega
    have ht := ih fun d hd => h d (by simp [hd])
    simp only [camelToScreamingSnakeCase, replaceUpperWithUnderscore, jsToUpperCase,
      List.map_cons, List.flatten_cons, hnotUpper, Bool.false_eq_true, if_false,
      List.singleton_append] at *
    simpa using ht

/-- Witness for C10: the connection_info tag satisfies the hypothesis and
the two derivations agree on it. -/
theorem camel_eq_upper_on_class_tags_witness :
    (∀ c ∈ ("connection_info".data), isLowerOrUnderscore c = true) ∧
      camelToScreamingSnakeCase ("connection_info".data) =
        jsToUpperCase ("connection_info".data) :=
  ⟨by decide, camel_eq_upper_on_class_tags ("connection_info".data) (by decide)⟩

/-! ### Claim C2 -/

/-- A full speed_test bucket whose anchor is at time 0, with the daily
boundary a day away. -/
def fullBucketAt0 : TokenBucketState :=
  { tokens := 2, lastRefill := 0, dailyRequestCount := 0, dailyResetTime := 86400000
    concurrentRequests := 0 }

/-- Counterexample to C2: a refill of an already-full speed_test bucket at
now = intervalMs (one whole interval elapsed, k = 1) leaves lastRefill at 0
instead of advancing it to lastRefill + k·intervalMs = 180000 as the claim
requires of every refill with elapsed time at least one interval. -/
theorem refill_anchor_stalls_when_full :
    refillTokens speedTestConfig fullBucketAt0 180000 = fullBucketAt0 ∧
      (refillTokens speedTestConfig fullBucketAt0 180000).lastRefill ≠
        fullBucketAt0.lastRefill +
          (180000 - fullBucketAt0.lastRefill) / speedTestConfig.intervalMs *
            speedTestConfig.intervalMs := by
  constructor
  · decide
  · decide

/-- Claim C2 amended: for every refill with elapsed time at least
intervalMs, with k = floor(elapsed / intervalMs) and
addedTokens = min(k·tokensPerInterval, maxBucketSize − tokens): when
addedTokens > 0 the token count increases by addedTokens and the anchor
advances to lastRefill + k·intervalMs, but when addedTokens = 0 (in
particular, when the bucket is already full) the state — anchor included —
is left unchanged; and every bucket starts full at maxBucketSize. -/
theorem refill_advances_only_when_tokens_added (config : RateLimitConfig)
    (st : TokenBucketState) (now : ℕ) (nd : ℕ → ℕ)
    (h : config.intervalMs ≤ now - st.lastRefill) :
    (0 < min ((now - st.lastRefill) / config.intervalMs * config.tokensPerInterval)
        (config.maxBucketSize - st.tokens) →
      refillTokens config st now =
        { st with
          tokens := st.tokens +
            min ((now - st.lastRefill) / config.intervalMs * config.tokensPerInterval)
              (config.maxBucketSize - st.tokens)
          lastRefill := st.lastRefill +
            (now - st.lastRefill) / config.intervalMs * config.intervalMs }) ∧
    (min ((now - st.lastRefill) / config.intervalMs * config.tokensPerInterval)
        (config.maxBucketSize - st.tokens) = 0 →
      refillTokens config st now = st) ∧
    (initBucketState config now nd).tokens = config.maxBucketSize := by
  have hinner : calculateTokensToAdd st.lastRefill config.tokensPerInterval config.intervalMs
      config.maxBucketSize st.tokens now =
      (min ((now - st.lastRefill) / config.intervalMs * config.tokensPerInterval)
        (config.maxBucketSize - st.tokens),
       st.lastRefill + (now - st.lastRefill) / config.intervalMs * config.intervalMs) := by
    simp only [calculateTokensToAdd]
    rw [if_neg (by omega)]
  refine ⟨?_, ?_, rfl⟩
  · intro ha
    have hle : min ((now - st.lastRefill) / config.intervalMs * config.tokensPerInterval)
        (config.maxBucketSize - st.tokens) ≤ config.maxBucketSize - st.tokens :=
      Nat.min_le_right _ _
    have hsum : st.tokens +
        min ((now - st.lastRefill) / config.intervalMs * config.tokensPerInterval)
          (config.maxBucketSize - st.tokens) ≤ config.maxBucketSize := by omega
    simp only [refillTokens, hinner]
    rw [if_pos ha, min_eq_left hsum]
  · intro ha
    simp only [refillTokens, hinner, ha]
    simp

/-- Witness for C2 (amended): refilling an empty speed_test bucket after
two whole intervals adds min(2·1, 2−0) = 2 tokens and advances the anchor
by 2·180000. -/
theorem refill_advances_only_when_tokens_added_witness :
    refillTokens speedTestConfig
        { tokens := 0, lastRefill := 0, dailyRequestCount := 3, dailyResetTime := 86400000
          concurrentRequests := 0 } 360000 =
      { tokens := 2, lastRefill := 360000, dailyRequestCount := 3, dailyResetTime := 86400000
        concurrentRequests := 0 } :=
  (refill_advances_only_when_tokens_added speedTestConfig
    { tokens := 0, lastRefill := 0, dailyRequestCount := 3, dailyResetTime := 86400000
      concurrentRequests := 0 } 360000 nextDayUTC (by decide)).1 (by decide)

/-! ### Claim C4 -/

/-- Helper: when checkRateLimit returns a denial (it did not throw and
allowed is false), the limiter it returns has an untouched backoffStates
map — resetBackoffState only runs on the success path. -/
theorem checkRateLimit_deny_backoff (rl : RateLimiter) (op : String) (now : ℕ)
    (nd : ℕ → ℕ) (r : RateLimitResult) (rl2 : RateLimiter)
    (hcrl : rl.checkRateLimit op now nd = .ok (r, rl2)) (hdeny : r.allowed = false) :
    rl2.backoffStates = rl.backoffStates := by
  unfold RateLimiter.checkRateLimit at hcrl
  cases hc : rl.configs op with
  | none => rw [hc] at hcrl; cases hcrl
  | some config =>
    cases hs : rl.states op with
    | none => rw [hc, hs] at hcrl; cases hcrl
    | some st0 =>
      rw [hc, hs] at hcrl
      simp only at hcrl
      split_ifs at hcrl with h1 h2 h3 <;>
        simp only [Except.ok.injEq, Prod.mk.injEq] at hcrl
      · rw [← hcrl.2]; rfl
      · rw [← hcrl.2]; rfl
      · rw [← hcrl.2]; rfl
      · rw [← hcrl.1] at hdeny; cases hdeny

/-- Helper: checkRateLimit never changes the process-wide backoff config
carried by the limiter record. -/
theorem checkRateLimit_backoffConfig (rl : RateLimiter) (op : String) (now : ℕ)
    (nd : ℕ → ℕ) (r : RateLimitResult) (rl2 : RateLimiter)
    (hcrl : rl.checkRateLimit op now nd = .ok (r, rl2)) :
    rl2.backoffConfig = rl.backoffConfig := by
  unfold RateLimiter.checkRateLimit at hcrl
  cases hc : rl.configs op with
  | none => rw [hc] at hcrl; cases hcrl
  | some config =>
    cases hs : rl.states op with
    | none => rw [hc, hs] at hcrl; cases hcrl
    | some st0 =>
      rw [hc, hs] at hcrl
      simp only at hcrl
      split_ifs at hcrl with h1 h2 h3 <;>
        simp only [Except.ok.injEq, Prod.mk.injEq] at hcrl <;>
        rw [← hcrl.2] <;> rfl

/-- Counterexample to C4: with the default backoff config
(base 1000 ms, multiplier 2, jitter 0.1, cap 60000 ms), a limiter whose
speed_test concurrency slot is taken and whose consecutiveFailures count is
0, and the jitter sample u = 1/2 (zero jitter), the claim predicts a
backoff delay of min(1000·2⁰, 60000) = 1000 from the pre-increment count 0
and hence a thrown waitTimeMs of max(1000, 1000) = 1000 — but
acquirePermission records the failure before computing the delay and throws
waitTimeMs = 2000. -/
theorem backoff_uses_post_increment_count_counterexample :
    errWait (rlBusy.acquirePermission "speed_test" 1 nextDayUTC (1/2)) = some 2000 ∧
      ¬ ((2000 : ℚ) =
        max ((1000 : ℕ) : ℚ)
          (calculateBackoffDelay 0 defaultBackoffConfig.baseDelayMs
            defaultBackoffConfig.maxDelayMs defaultBackoffConfig.backoffMultiplier
            defaultBackoffConfig.jitterFactor (1/2))) := by
  constructor
  · simp [RateLimiter.acquirePermission, RateLimiter.checkRateLimit, rlBusy, rlDemo,
      checkConcurrentLimit, checkDailyLimit, checkTokenBucket, refillTokens,
      resetDailyCountIfNeeded, calculateTokensToAdd, calculateWaitTime, initBucketState,
      speedTestConfig, nextDayUTC, jsOrDefault, consumeToken, RateLimiter.setState,
      RateLimiter.setBackoff, errWait, calculateBackoffDelay, defaultBackoffConfig,
      mapReasonToLimitType]
    norm_num
  · norm_num [calculateBackoffDelay, defaultBackoffConfig]

/-- Claim C4 amended: on every admission denial via acquirePermission the
thrown waitTimeMs is max(admission wait hint, backoff delay), where the
backoff delay is min(baseDelayMs·backoffMultiplierᶜ, maxDelayMs) plus a
jitter of delay·jitterFactor·(u − 1/2) with the sum clamped at 0 — and c is
the POST-increment consecutiveFailures count (prior count + 1), so the
first denial after a success yields baseDelayMs·backoffMultiplier before
jitter, not baseDelayMs. -/
theorem acquire_backoff_uses_incremented_count (rl : RateLimiter) (op : String)
    (now : ℕ) (nd : ℕ → ℕ) (u : ℚ) (r : RateLimitResult) (bs : BackoffState)
    (hres : checkResult rl op now nd = some r) (hdeny : r.allowed = false)
    (hbs : rl.backoffStates op = some bs) :
    errWait (rl.acquirePermission op now nd u) =
      some (max ((r.waitTimeMs.getD 0 : ℕ) : ℚ)
        (max 0
          (min (rl.backoffConfig.baseDelayMs *
              rl.backoffConfig.backoffMultiplier ^ (bs.consecutiveFailures + 1))
            rl.backoffConfig.maxDelayMs +
          min (rl.backoffConfig.baseDelayMs *
              rl.backoffConfig.backoffMultiplier ^ (bs.consecutiveFailures + 1))
            rl.backoffConfig.maxDelayMs *
            rl.backoffConfig.jitterFactor * (u - 1/2)))) := by
  cases hcrl : rl.checkRateLimit op now nd with
  | error e => simp [checkResult, hcrl] at hres
  | ok p =>
    obtain ⟨r1, rl1⟩ := p
    have hr : r1 = r := by simpa [checkResult, hcrl] using hres
    subst hr
    have hbs1 : rl1.backoffStates op = some bs := by
      rw [checkRateLimit_deny_backoff rl op now nd r1 rl1 hcrl hdeny]
      exact hbs
    have hcfg : rl1.backoffConfig = rl.backoffConfig :=
      checkRateLimit_backoffConfig rl op now nd r1 rl1 hcrl
    simp only [RateLimiter.acquirePermission, hcrl, hdeny, hbs1, RateLimiter.setBackoff,
      Nat.succ_ne_zero, if_false, calculateBackoffDelay, errWait,
      Bool.false_eq_true, reduceIte, hcfg]

/-- Witness for C4 (amended): the busy speed_test bucket denies at the
concurrent gate with wait hint 1000 and prior failure count 0, and the
thrown waitTimeMs follows the post-increment formula. -/
theorem acquire_backoff_uses_incremented_count_witness :
    checkResult rlBusy "speed_test" 1 nextDayUTC =
      some { allowed := false, waitTimeMs := some 1000, reason := some .concurrentExceeded } ∧
    rlBusy.backoffStates "speed_test" = some { consecutiveFailures := 0, lastFailureTime := 0 } ∧
    errWait (rlBusy.acquirePermission "speed_test" 1 nextDayUTC (1/2)) =
      some (max ((((1000 : ℕ) : ℚ)))
        (max 0
          (min (rlBusy.backoffConfig.baseDelayMs *
              rlBusy.backoffConfig.backoffMultiplier ^ (0 + 1))
            rlBusy.backoffConfig.maxDelayMs +
          min (rlBusy.backoffConfig.baseDelayMs *
              rlBusy.backoffConfig.backoffMultiplier ^ (0 + 1))
            rlBusy.backoffConfig.maxDelayMs *
            rlBusy.backoffConfig.jitterFactor * ((1:ℚ)/2 - 1/2)))) :=
  ⟨by decide, by decide,
    acquire_backoff_uses_incremented_count rlBusy "speed_test" 1 nextDayUTC (1/2)
      { allowed := false, waitTimeMs := some 1000, reason := some .concurrentExceeded }
      { consecutiveFailures := 0, lastFailureTime := 0 } (by decide) rfl (by decide)⟩

/-! ### Claim C5 -/

/-- Counterexample to C5: the claim requires an unknown operation class to
fail with an InvalidOperation error DISTINCT from the RateLimitExceeded
error used for admission denials; but checkRateLimit on the unrecognized
tag bogus_op throws a RateLimitError (waitTimeMs 0, reason token_bucket) —
the very same error class (Error.name "RateLimitError") that an admission
denial throws, as witnessed by the denial on the busy speed_test bucket. -/
theorem unknown_op_error_same_class_counterexample :
    rlDemo.checkRateLimit "bogus_op" 0 nextDayUTC =
      .error { waitTimeMs := 0, operationType := "bogus_op", reason := .tokenBucket } ∧
    errName (rlDemo.checkRateLimit "bogus_op" 0 nextDayUTC) = some "RateLimitError" ∧
    errName (rlBusy.acquirePermission "speed_test" 1 nextDayUTC (1/2)) =
      some "RateLimitError" := by
  refine ⟨rfl, rfl, ?_⟩
  simp [RateLimiter.acquirePermission, RateLimiter.checkRateLimit, rlBusy, rlDemo,
    checkConcurrentLimit, checkDailyLimit, checkTokenBucket, refillTokens,
    resetDailyCountIfNeeded, calculateTokensToAdd, calculateWaitTime, initBucketState,
    speedTestConfig, nextDayUTC, jsOrDefault, consumeToken, RateLimiter.setState,
    RateLimiter.setBackoff, errName, calculateBackoffDelay, defaultBackoffConfig,
    mapReasonToLimitType]

/-- Claim C5 amended: for every operation-class value outside the
recognized set (missing from the limiter maps), both admission operations
fail with a RateLimitError carrying waitTimeMs 0 and reason token_bucket —
the same error class as admission denials, not a distinct InvalidOperation
error. -/
theorem unknown_op_fails_with_rate_limit_error (rl : RateLimiter) (op : String)
    (now : ℕ) (nd : ℕ → ℕ) (u : ℚ)
    (h : rl.configs op = none ∨ rl.states op = none) :
    rl.checkRateLimit op now nd =
      .error { waitTimeMs := 0, operationType := op, reason := .tokenBucket } ∧
    rl.acquirePermission op now nd u =
      .error { waitTimeMs := 0, operationType := op, reason := .tokenBucket } := by
  have hch : rl.checkRateLimit op now nd =
      .error { waitTimeMs := 0, operationType := op, reason := .tokenBucket } := by
    unfold RateLimiter.checkRateLimit
    rcases h with h | h
    · rw [h]
    · cases hc : rl.configs op with
      | none => rfl
      | some config => rw [h]
  refine ⟨hch, ?_⟩
  unfold RateLimiter.acquirePermission
  rw [hch]

/-- Witness for C5 (amended): bogus_op is not a recognized class of the
demo limiter, and both admission operations reject it with the
RateLimitError value. -/
theorem unknown_op_fails_with_rate_limit_error_witness :
    rlDemo.configs "bogus_op" = none ∧
    (rlDemo.checkRateLimit "bogus_op" 0 nextDayUTC =
      .error { waitTimeMs := 0, operationType := "bogus_op", reason := .tokenBucket } ∧
    rlDemo.acquirePermission "bogus_op" 0 nextDayUTC (1/2) =
      .error { waitTimeMs := 0, operationType := "bogus_op", reason := .tokenBucket }) :=
  ⟨by decide,
    unknown_op_fails_with_rate_limit_error rlDemo "bogus_op" 0 nextDayUTC (1/2)
      (Or.inl (by decide))⟩

/-! ### Claim C3 -/

/-- Specification-side gate evaluation, written from the claim: the gates
run in the order concurrent, daily, token; the first denying gate fixes the
reason; and the wait hints are concurrentLimitWaitMs (default 1000, with
the JS-truthiness reading of the default for a configured 0), dailyResetTime − now,
and intervalMs − ((now − lastRefill) mod intervalMs).  It is evaluated on
the state after the refill/daily-reset touch, which is where the code reads
lastRefill and dailyResetTime. -/
def checkGatesSpecTriple (config : RateLimitConfig) (st : TokenBucketState) (now : ℕ) :
    Bool × Option DenyReason × Option ℕ :=
  if config.maxConcurrentRequests ≤ st.concurrentRequests then
    (false, some .concurrentExceeded, some (jsOrDefault config.concurrentLimitWaitMs 1000))
  else if config.maxDailyRequests ≤ st.dailyRequestCount then
    (false, some .dailyExceeded, some (st.dailyResetTime - now))
  else if st.tokens < 1 then
    (false, some .tokenDepleted,
      some (config.intervalMs - (now - st.lastRefill) % config.intervalMs))
  else (true, none, none)

/-- Claim C3: for every admission check on a recognized operation class,
the (allowed, reason, waitTimeMs) triple of checkRateLimit equals the
specification triple: concurrent before daily before token, first denier
reported, and the wait-time contract of the claim. -/
theorem gates_ordered_with_wait_contract (rl : RateLimiter) (op : String) (now : ℕ)
    (nd : ℕ → ℕ) (config : RateLimitConfig) (st0 : TokenBucketState)
    (h1 : rl.configs op = some config) (h2 : rl.states op = some st0) :
    (rl.checkRateLimit op now nd).map (fun p => (p.1.allowed, p.1.reason, p.1.waitTimeMs)) =
      .ok (checkGatesSpecTriple config
        (resetDailyCountIfNeeded (refillTokens config st0 now) now nd) now) := by
  unfold RateLimiter.checkRateLimit
  rw [h1, h2]
  simp only [checkGatesSpecTriple, checkConcurrentLimit, checkDailyLimit, checkTokenBucket,
    calculateWaitTime, consumeToken, if_pos rfl]
  split_ifs <;> simp_all [Except.map]

/-- Witness for C3: the busy speed_test bucket is recognized and denies at
the concurrent gate with the default 1000 ms hint. -/
theorem gates_ordered_with_wait_contract_witness :
    rlBusy.configs "speed_test" = some speedTestConfig ∧
    rlBusy.states "speed_test" =
      some { initBucketState speedTestConfig 0 nextDayUTC with concurrentRequests := 1 } ∧
    (rlBusy.checkRateLimit "speed_test" 1 nextDayUTC).map
        (fun p => (p.1.allowed, p.1.reason, p.1.waitTimeMs)) =
      .ok (checkGatesSpecTriple speedTestConfig
        (resetDailyCountIfNeeded
          (refillTokens speedTestConfig
            { initBucketState speedTestConfig 0 nextDayUTC with concurrentRequests := 1 } 1)
          1 nextDayUTC) 1) :=
  ⟨by decide, by decide,
    gates_ordered_with_wait_contract rlBusy "speed_test" 1 nextDayUTC speedTestConfig
      { initBucketState speedTestConfig 0 nextDayUTC with concurrentRequests := 1 }
      (by decide) (by decide)⟩

/-! ### Claim C1 -/

/-- Helper: refilling never touches concurrentRequests. -/
theorem refillTokens_concurrent (config : RateLimitConfig) (st : TokenBucketState)
    (now : ℕ) : (refillTokens config st now).concurrentRequests = st.concurrentRequests := by
  simp only [refillTokens]
  split <;> rfl

/-- Helper: the daily reset never touches concurrentRequests. -/
theorem resetDaily_concurrent (st : TokenBucketState) (now : ℕ) (nd : ℕ → ℕ) :
    (resetDailyCountIfNeeded st now nd).concurrentRequests = st.concurrentRequests := by
  unfold resetDailyCountIfNeeded
  split <;> rfl

/-- Helper: checkRateLimit leaves the concurrentRequests of every bucket
unchanged (it refills, resets daily counts and consumes tokens, but never
touches the concurrency counter). -/
theorem checkRateLimit_concurrent_preserved (rl : RateLimiter) (op : String) (now : ℕ)
    (nd : ℕ → ℕ) (r : RateLimitResult) (rl2 : RateLimiter)
    (hcrl : rl.checkRateLimit op now nd = .ok (r, rl2)) (o : String) :
    (rl2.states o).map (fun s => s.concurrentRequests) =
      (rl.states o).map (fun s => s.concurrentRequests) := by
  unfold RateLimiter.checkRateLimit at hcrl
  cases hc : rl.configs op with
  | none => rw [hc] at hcrl; cases hcrl
  | some config =>
    cases hs : rl.states op with
    | none => rw [hc, hs] at hcrl; cases hcrl
    | some st0 =>
      rw [hc, hs] at hcrl
      simp only at hcrl
      have hconc :
          (resetDailyCountIfNeeded (refillTokens config st0 now) now nd).concurrentRequests =
            st0.concurrentRequests := by
        rw [resetDaily_concurrent, refillTokens_concurrent]
      split_ifs at hcrl with h1 h2 h3 <;>
          simp only [Except.ok.injEq, Prod.mk.injEq] at hcrl <;>
          rw [← hcrl.2] <;>
          by_cases ho : o = op
      · subst ho; simp [RateLimiter.setState, hs, hconc]
      · simp [RateLimiter.setState, ho]
      · subst ho; simp [RateLimiter.setState, hs, hconc]
      · simp [RateLimiter.setState, ho]
      · subst ho; simp [RateLimiter.setState, hs, hconc]
      · simp [RateLimiter.setState, ho]
      · subst ho; simp [RateLimiter.setState, RateLimiter.setBackoff, hs, consumeToken, hconc]
      · simp [RateLimiter.setState, RateLimiter.setBackoff, ho]

/-- Counterexample to C1: a concrete invocation of the tool pipeline on the
fresh speed_test bucket — admission succeeds (checkRateLimit allows), the
tool implementation succeeds, and yet the number of releasePermission calls
performed by the invocation is 0, not the exactly-once the claim requires. -/
theorem release_never_called_counterexample :
    checkResult rlDemo "speed_test" 0 nextDayUTC =
      some { allowed := true, remainingTokens := some 1, dailyRequestsRemaining := some 49 } ∧
    (BaseTool.executeRun rlDemo "speed_test" "run_speed_test" 0 nextDayUTC 0 none
        (.succeeds 5)).2.2.count (LimiterCall.rel "speed_test") = 0 ∧
    ¬ ((BaseTool.executeRun rlDemo "speed_test" "run_speed_test" 0 nextDayUTC 0 none
        (.succeeds 5)).2.2.count (LimiterCall.rel "speed_test") = 1) := by
  refine ⟨by decide, ?_, ?_⟩ <;> decide

/-- Claim C1 amended: the tool pipeline admits through
RateLimiter.checkRateLimit only — on no exit path of BaseTool.execute is
releasePermission (or acquirePermission) ever invoked, and since
checkRateLimit never touches the concurrency counter, every invocation
leaves concurrentRequests of every bucket exactly unchanged (conservation
holds vacuously: zero increments, zero decrements). -/
theorem pipeline_never_calls_release (rl : RateLimiter) (op toolName : String)
    (now : ℕ) (nd : ℕ → ℕ) (startTime : ℕ) (validationError : Option JsError)
    (impl : ImplOutcome) (o : String) :
    (BaseTool.executeRun rl op toolName now nd startTime validationError impl).2.2.count
        (LimiterCall.rel op) = 0 ∧
    (BaseTool.executeRun rl op toolName now nd startTime validationError impl).2.2.count
        (LimiterCall.acq op) = 0 ∧
    ((BaseTool.executeRun rl op toolName now nd startTime validationError impl).2.1.states
        o).map (fun s => s.concurrentRequests) =
      (rl.states o).map (fun s => s.concurrentRequests) := by
  unfold BaseTool.executeRun
  cases validationError with
  | some e => exact ⟨rfl, rfl, rfl⟩
  | none =>
    cases hcrl : rl.checkRateLimit op now nd with
    | error e => exact ⟨rfl, rfl, rfl⟩
    | ok p =>
      obtain ⟨r, rl1⟩ := p
      have hpres := checkRateLimit_concurrent_preserved rl op now nd r rl1 hcrl o
      cases impl with
      | succeeds t => exact ⟨rfl, rfl, hpres⟩
      | failsResult code msg => exact ⟨rfl, rfl, hpres⟩
      | throwsErr e => exact ⟨rfl, rfl, hpres⟩

/-! ### Claim C6 -/

/-- Projection: the JsError carried by a failed computation (with an inert
placeholder for the impossible success case at the use sites below). -/
def errValue {α : Type} : Except JsError α → JsError
  | .error e => e
  | .ok _ => { name := "NoError", message := "" }

/-- The E5 scenario: the probe adapter configured with deadline 1 ms, so
every executeSpeedTest attempt rejects with TimeoutError(1), run through
runSpeedTest. -/
def probeTimeoutScenario : Except JsError Unit :=
  runSpeedTestResult 1 fun _ => .error (timeoutError 1)

/-- Counterexample to C6: with the deadline of 1 ms firing on the probe,
runSpeedTest does NOT fail with TIMEOUT_ERROR: withRetry wraps the
TimeoutError of every attempt — retryable or not — in a RetryError, so
runSpeedTest takes its RetryError branch (the TimeoutError branch is
unreachable) and throws SpeedTestError with code SPEED_TEST_RETRY_EXHAUSTED,
which getErrorCode in the pipeline then copies verbatim into the envelope. -/
theorem timeout_code_is_retry_exhausted_counterexample :
    (errValue probeTimeoutScenario).code = some "SPEED_TEST_RETRY_EXHAUSTED" ∧
    (formatErrorResponse (errValue probeTimeoutScenario) "run_speed_test" 0 5).errorCode =
      "SPEED_TEST_RETRY_EXHAUSTED" ∧
    ¬ ((formatErrorResponse (errValue probeTimeoutScenario) "run_speed_test" 0 5).errorCode =
      "TIMEOUT_ERROR") := by
  refine ⟨?_, ?_, ?_⟩ <;> decide

/-- Claim C6 amended: whenever the 1 ms deadline fires while awaiting the
probe, the invocation fails and the emitted envelope has success = false
and executionTime ≥ 1 (given at least 1 ms elapsed) — but its error code is
SPEED_TEST_RETRY_EXHAUSTED (the timeout having been wrapped by the retry
layer into a RetryError), not TIMEOUT_ERROR. -/
theorem timeout_envelope_shape (toolName : String) (startTime now : ℕ)
    (h : startTime + 1 ≤ now) :
    (formatErrorResponse (errValue probeTimeoutScenario) toolName startTime now).success
        = false ∧
    (formatErrorResponse (errValue probeTimeoutScenario) toolName startTime now).errorCode
        = "SPEED_TEST_RETRY_EXHAUSTED" ∧
    1 ≤ (formatErrorResponse (errValue probeTimeoutScenario) toolName startTime
        now).executionTime := by
  refine ⟨rfl, ?_, ?_⟩
  · have : getErrorCode (errValue probeTimeoutScenario) = "SPEED_TEST_RETRY_EXHAUSTED" := by
      decide
    simpa [formatErrorResponse] using this
  · simp only [formatErrorResponse]
    omega

/-- Witness for C6 (amended): at startTime 0 and now 5 the envelope has the
stated shape. -/
theorem timeout_envelope_shape_witness :
    (0 : ℕ) + 1 ≤ 5 ∧
    ((formatErrorResponse (errValue probeTimeoutScenario) "run_speed_test" 0 5).success
        = false ∧
    (formatErrorResponse (errValue probeTimeoutScenario) "run_speed_test" 0 5).errorCode
        = "SPEED_TEST_RETRY_EXHAUSTED" ∧
    1 ≤ (formatErrorResponse (errValue probeTimeoutScenario) "run_speed_test" 0
        5).executionTime) :=
  ⟨by decide, timeout_envelope_shape "run_speed_test" 0 5 (by decide)⟩

/-! ### Claim C8 -/

/-- Claim C8: for run_speed_test, the reported overallScore is the mean of
the available component scores — latency max(0, 100 − ms/10), download
min(100, (Mbps/100)·100), upload min(100, (Mbps/25)·100), packet loss
max(0, 100 − pct·10) — rounded to the nearest integer (Math.round), and the
classification applies the thresholds 80/60/40 to that mean score. -/
theorem overall_score_is_rounded_mean (d : SpeedComponents) :
    (calculateOverallSummary d).overallScore = jsRound (meanScore d) ∧
    (calculateOverallSummary d).classification =
      (if 80 ≤ meanScore d then Classification.excellent
       else if 60 ≤ meanScore d then Classification.good
       else if 40 ≤ meanScore d then Classification.fair
       else Classification.poor) := by
  obtain ⟨dl, ul, lt, pl⟩ := d
  cases lt <;> cases dl <;> cases ul <;> cases pl <;>
    simp [calculateOverallSummary, meanScore, componentScores, jsRound] <;>
    norm_num <;>
    constructor <;>
    congr 1 <;>
    ring_nf

/-! ### Claim C9 -/

/-- The sort key of an entry: its distanceKm, with entries lacking a
distance keyed at the top. -/
def distKey (s : ServerInfo) : WithTop ℚ :=
  match s.distanceKm with
  | some x => (x : WithTop ℚ)
  | none => ⊤

/-- Helper: a comparator pass (comparator(a,b) ≤ 0) implies the keys are
ordered. -/
theorem distKey_le_of_cmp {a b : ServerInfo} (h : distCmpLe a b = true) :
    distKey a ≤ distKey b := by
  unfold distCmpLe at h
  unfold distKey
  cases ha : a.distanceKm with
  | none => rw [ha] at h; cases h
  | some x =>
    cases hb : b.distanceKm with
    | none => exact le_top
    | some y =>
      rw [ha, hb] at h
      simp only [decide_eq_true_eq] at h
      show (x : WithTop ℚ) ≤ (y : WithTop ℚ)
      exact_mod_cast h

/-- Helper: a comparator failure implies the keys are ordered the other
way (this also covers the two-entries-without-distance case, whose keys are
both top). -/
theorem distKey_le_of_not_cmp {a b : ServerInfo} (h : distCmpLe a b = false) :
    distKey b ≤ distKey a := by
  unfold distCmpLe at h
  unfold distKey
  cases ha : a.distanceKm with
  | none => exact le_top
  | some x =>
    cases hb : b.distanceKm with
    | none => rw [ha, hb] at h; cases h
    | some y =>
      rw [ha, hb] at h
      simp only [decide_eq_false_iff_not] at h
      show (y : WithTop ℚ) ≤ (x : WithTop ℚ)
      exact_mod_cast le_of_not_le h

/-- Helper: inserting with the distance comparator preserves key
sortedness. -/
theorem pairwise_key_orderedInsert (a : ServerInfo) (l : List ServerInfo)
    (h : l.Pairwise fun x y => distKey x ≤ distKey y) :
    (List.orderedInsert (fun x y => distCmpLe x y = true) a l).Pairwise
      (fun x y => distKey x ≤ distKey y) := by
  induction l with
  | nil => simp
  | cons b t ih =>
    rw [List.orderedInsert]
    by_cases hc : distCmpLe a b = true
    · rw [if_pos hc]
      have hab := distKey_le_of_cmp hc
      refine List.Pairwise.cons ?_ h
      intro x hx
      rcases List.mem_cons.1 hx with rfl | hxt
      · exact hab
      · exact le_trans hab (List.rel_of_pairwise_cons h hxt)
    · rw [if_neg hc]
      have hba := distKey_le_of_not_cmp (Bool.eq_false_iff.2 hc)
      refine List.Pairwise.cons ?_ (ih (List.Pairwise.of_cons h))
      intro x hx
      rcases (List.mem_orderedInsert _).1 hx with rfl | hxt
      · exact hba
      · exact List.rel_of_pairwise_cons h hxt

/-- Helper: the insertion sort driven by the distance comparator produces a
list sorted by key — ascending distances, entries without a distance last. -/
theorem pairwise_key_insertionSort (l : List ServerInfo) :
    (List.insertionSort (fun x y => distCmpLe x y = true) l).Pairwise
      (fun x y => distKey x ≤ distKey y) := by
  induction l with
  | nil => simp
  | cons b t ih => exact pairwise_key_orderedInsert b _ ih

/-- Claim C9: for a catalog list call with a filter whose maxDistance is
set, an entry without a defined distanceKm that survives the other filters
is never pruned by the distance bound (it is in the returned list), and
whenever a user location is given the returned list is sorted ascending by
distanceKm with entries lacking a distance sorted last (pairwise key
order). -/
theorem maxdistance_prunes_only_defined_and_sorts
    (dist : Coordinates → Coordinates → ℚ) (servers : List ServerInfo)
    (filt : ServerFilter) (uloc : Option GeoLocation) (s : ServerInfo) :
    (s.distanceKm = none →
      s ∈ filterCascade { filt with maxDistance := none } uloc
        (enrichDistances dist uloc servers) →
      s ∈ filterServers dist servers (some filt) uloc) ∧
    (uloc.isSome = true →
      (filterServers dist servers (some filt) uloc).Pairwise
        fun a b => distKey a ≤ distKey b) := by
  constructor
  · intro hnone hmem
    have hmem2 : s ∈ filterCascade filt uloc (enrichDistances dist uloc servers) := by
      simp only [filterCascade] at hmem ⊢
      rw [Option.isSome_none, Bool.false_and, if_neg (by simp)] at hmem
      split
      · exact List.mem_filter.2 ⟨hmem, by rw [hnone]⟩
      · exact hmem
    unfold filterServers
    cases uloc with
    | none => exact hmem2
    | some u =>
      simp only
      exact (List.Perm.mem_iff (List.perm_insertionSort _ _)).2 hmem2
  · intro hu
    cases uloc with
    | none => cases hu
    | some u => exact pairwise_key_insertionSort _

/-- Catalog fixture: an entry without coordinates. -/
def serverNoCoords : ServerInfo :=
  { name := "AAA", location := "Atown, AA", country := "US", city := "Atown", region := "AA" }

/-- Catalog fixture: an entry with coordinates. -/
def serverWithCoords : ServerInfo :=
  { name := "BBB", location := "Btown, BB", country := "US", city := "Btown", region := "BB"
    latitude := some 50, longitude := some 50 }

/-- Witness for C9: with a user location, a constant-10 km distance
collaborator and maxDistance 5, the entry without coordinates survives the
distance bound and the returned list is key-sorted. -/
theorem maxdistance_prunes_only_defined_and_sorts_witness :
    serverNoCoords ∈ filterServers (fun _ _ => 10) [serverNoCoords, serverWithCoords]
      (some { maxDistance := some 5 })
      (some { latitude := some 1, longitude := some 1 }) ∧
    (filterServers (fun _ _ => 10) [serverNoCoords, serverWithCoords]
        (some { maxDistance := some 5 })
        (some { latitude := some 1, longitude := some 1 })).Pairwise
      (fun a b => distKey a ≤ distKey b) :=
  ⟨(maxdistance_prunes_only_defined_and_sorts (fun _ _ => 10)
      [serverNoCoords, serverWithCoords] { maxDistance := some 5 }
      (some { latitude := some 1, longitude := some 1 }) serverNoCoords).1 rfl (by decide),
   (maxdistance_prunes_only_defined_and_sorts (fun _ _ => 10)
      [serverNoCoords, serverWithCoords] { maxDistance := some 5 }
      (some { latitude := some 1, longitude := some 1 }) serverNoCoords).2 rfl⟩

/-! ### Claim C7 -/

/-- Helper: on a recognized operation class, checkRateLimit never throws. -/
theorem checkRateLimit_ne_error (rl : RateLimiter) (op : String) (now : ℕ)
    (nd : ℕ → ℕ) (config : RateLimitConfig) (bst : TokenBucketState)
    (h1 : rl.configs op = some config) (h2 : rl.states op = some bst)
    (e : RateLimitErrorData) : rl.checkRateLimit op now nd ≠ .error e := by
  unfold RateLimiter.checkRateLimit
  rw [h1, h2]
  simp only
  split_ifs <;> simp

/-- Helper: when checkRateLimit allows on a recognized class, the bucket it
leaves behind is the refilled, daily-reset state with one token consumed. -/
theorem checkRateLimit_allow_state (rl : RateLimiter) (op : String) (now : ℕ)
    (nd : ℕ → ℕ) (r : RateLimitResult) (rl2 : RateLimiter)
    (config : RateLimitConfig) (bst : TokenBucketState)
    (hcrl : rl.checkRateLimit op now nd = .ok (r, rl2)) (hallow : r.allowed = true)
    (h1 : rl.configs op = some config) (h2 : rl.states op = some bst) :
    rl2.states op =
      some (consumeToken (resetDailyCountIfNeeded (refillTokens config bst now) now nd)) := by
  unfold RateLimiter.checkRateLimit at hcrl
  rw [h1, h2] at hcrl
  simp only at hcrl
  split_ifs at hcrl with g1 g2 g3 <;>
    simp only [Except.ok.injEq, Prod.mk.injEq] at hcrl
  · rw [← hcrl.1] at hallow; rw [hallow] at g1; cases g1
  · rw [← hcrl.1] at hallow; rw [hallow] at g2; cases g2
  · rw [← hcrl.1] at hallow; rw [hallow] at g3; cases g3
  · rw [← hcrl.2]
    simp [RateLimiter.setState, RateLimiter.setBackoff]

/-- Claim C7: for every catalog lookup — (a) a valid cache is served
filtered, without running the fetch; (b) whenever the upstream fetch runs,
the admission check consumed one token from the connection_info bucket
first; (c) an admission denial on a missing/stale cache surfaces as the
catalog-discovery error and the fetch does not run; (d) when the fetch
fails, a cached (stale) copy is served with no error propagated, and
without any cache the fetch error propagates. -/
theorem catalog_stale_fallback_and_admission
    (dist : Coordinates → Coordinates → ℚ) (st : DiscoveryState) (now : ℕ)
    (nd : ℕ → ℕ) (fetchResult : Except JsError (List ServerInfo))
    (filt : Option ServerFilter) (uloc : Option GeoLocation)
    (config : RateLimitConfig) (bst : TokenBucketState)
    (h1 : st.limiter.configs connectionInfoOp = some config)
    (h2 : st.limiter.states connectionInfoOp = some bst) :
    (∀ c, st.cache = some c → now - c.timestamp < CACHE_TTL_MS →
      getServers dist st now nd fetchResult filt uloc =
        (.ok (filterServers dist c.servers filt uloc), st, false)) ∧
    ((getServers dist st now nd fetchResult filt uloc).2.2 = true →
      (getServers dist st now nd fetchResult filt uloc).2.1.limiter.states connectionInfoOp =
        some (consumeToken (resetDailyCountIfNeeded (refillTokens config bst now) now nd))) ∧
    (∀ r, checkResult st.limiter connectionInfoOp now nd = some r → r.allowed = false →
      isCacheValid st.cache now = false →
      (getServers dist st now nd fetchResult filt uloc).1 = .discoveryRateLimit r.reason ∧
      (getServers dist st now nd fetchResult filt uloc).2.2 = false) ∧
    (∀ e r, fetchResult = .error e →
      checkResult st.limiter connectionInfoOp now nd = some r → r.allowed = true →
      isCacheValid st.cache now = false →
      ((∀ c, st.cache = some c →
        (getServers dist st now nd fetchResult filt uloc).1 =
          .ok (filterServers dist c.servers filt uloc)) ∧
       (st.cache = none →
        (getServers dist st now nd fetchResult filt uloc).1 = .fetchFailure e))) := by
  cases hcrl : st.limiter.checkRateLimit connectionInfoOp now nd with
  | error e0 => exact absurd hcrl (checkRateLimit_ne_error _ _ _ _ _ _ h1 h2 e0)
  | ok p =>
    obtain ⟨r0, rl1⟩ := p
    have hpath : ∀ hf2 : (getServersFetchPath dist st now nd fetchResult filt uloc).2.2 = true,
        (getServersFetchPath dist st now nd fetchResult filt
            uloc).2.1.limiter.states connectionInfoOp =
          some (consumeToken (resetDailyCountIfNeeded (refillTokens config bst now) now nd)) := by
      intro hf2
      simp only [getServersFetchPath, hcrl] at hf2 ⊢
      by_cases hallow : r0.allowed = false
      · rw [if_pos hallow] at hf2; cases hf2
      · rw [if_neg hallow] at hf2 ⊢
        have hallowT : r0.allowed = true := by
          cases hr : r0.allowed
          · exact absurd hr hallow
          · rfl
        have hst := checkRateLimit_allow_state st.limiter connectionInfoOp now nd r0 rl1
          config bst hcrl hallowT h1 h2
        cases fetchResult with
        | ok servers => exact hst
        | error e =>
          cases hc : st.cache with
          | none => simp only [hc]; exact hst
          | some c => simp only [hc]; exact hst
    refine ⟨?_, ?_, ?_, ?_⟩
    · intro c hc hlt
      simp only [getServers, hc]
      rw [if_pos hlt]
    · intro hf
      cases hc : st.cache with
      | none =>
        simp only [getServers, hc] at hf ⊢
        exact hpath hf
      | some c =>
        by_cases hlt : now - c.timestamp < CACHE_TTL_MS
        · simp only [getServers, hc, if_pos hlt] at hf
          cases hf
        · simp only [getServers, hc, if_neg hlt] at hf ⊢
          exact hpath hf
    · intro r hr hdeny hinvalid
      have hr0 : r0 = r := by
        simp only [checkResult, hcrl, Option.some.injEq] at hr
        exact hr
      subst hr0
      have hfetch : getServers dist st now nd fetchResult filt uloc =
          getServersFetchPath dist st now nd fetchResult filt uloc := by
        cases hc : st.cache with
        | none => simp only [getServers, hc]
        | some c =>
          rw [hc] at hinvalid
          simp only [isCacheValid, decide_eq_false_iff_not] at hinvalid
          simp only [getServers, hc, if_neg hinvalid]
      rw [hfetch]
      simp only [getServersFetchPath, hcrl, hdeny, reduceIte]
      exact ⟨trivial, trivial⟩
    · intro e r hfe hr hallow hinvalid
      have hr0 : r0 = r := by
        simp only [checkResult, hcrl, Option.some.injEq] at hr
        exact hr
      subst hr0
      have hfetch : getServers dist st now nd fetchResult filt uloc =
          getServersFetchPath dist st now nd fetchResult filt uloc := by
        cases hc : st.cache with
        | none => simp only [getServers, hc]
        | some c =>
          rw [hc] at hinvalid
          simp only [isCacheValid, decide_eq_false_iff_not] at hinvalid
          simp only [getServers, hc, if_neg hinvalid]
      rw [hfetch]
      simp only [getServersFetchPath, hcrl, hallow, Bool.true_eq_false, reduceIte, hfe]
      constructor
      · intro c hc
        simp only [hc]
      · intro hc
        simp only [hc]

/-- DEFAULT_RATE_LIMITS[connection_info]. -/
def connInfoConfig : RateLimitConfig :=
  { tokensPerInterval := 20, intervalMs := 60000, maxBucketSize := 30
    maxDailyRequests := 1000, maxConcurrentRequests := 5 }

/-- A limiter holding exactly the connection_info bucket in its fresh
state at time 0. -/
def rlConn : RateLimiter :=
  { configs := fun o => if o = connectionInfoOp then some connInfoConfig else none
    states := fun o =>
      if o = connectionInfoOp then some (initBucketState connInfoConfig 0 nextDayUTC) else none
    backoffStates := fun o =>
      if o = connectionInfoOp then some { consecutiveFailures := 0, lastFailureTime := 0 }
      else none
    backoffConfig := defaultBackoffConfig }

/-- A discovery service with an empty cache over that limiter. -/
def discoDemo : DiscoveryState := { cache := none, limiter := rlConn }

/-- The SpeedTestError thrown by a failing discoverServers call. -/
def fetchBoom : JsError :=
  { name := "SpeedTestError", message := "Failed to discover servers: boom"
    code := some "SERVER_DISCOVERY_NETWORK_ERROR", retryable := some true }

/-- Witness for C7: with an empty cache, an allowed admission and a failing
fetch, the fetch error propagates out of getServers. -/
theorem catalog_stale_fallback_and_admission_witness :
    discoDemo.limiter.configs connectionInfoOp = some connInfoConfig ∧
    discoDemo.limiter.states connectionInfoOp =
      some (initBucketState connInfoConfig 0 nextDayUTC) ∧
    (getServers (fun _ _ => 10) discoDemo 5 nextDayUTC (.error fetchBoom) none none).1 =
      .fetchFailure fetchBoom :=
  ⟨by decide, by decide,
    ((catalog_stale_fallback_and_admission (fun _ _ => 10) discoDemo 5 nextDayUTC
        (.error fetchBoom) none none connInfoConfig
        (initBucketState connInfoConfig 0 nextDayUTC) (by decide) (by decide)).2.2.2 fetchBoom
        { allowed := true, remainingTokens := some 29, dailyRequestsRemaining := some 999 }
        rfl (by decide) rfl (by decide)).2 rfl⟩
